import Mathlib

/-!
Shallow embedding of the per-pixel LAI retrieval-and-compositing pipeline of
`src/gee/lai_state_monthly_export.js` (CONUS-30m-LAI-mapping).

Earth Engine images are modelled per pixel: a band value at a pixel is an
`Option` (`none` = masked / no-data).  Reflectance and LAI values are rationals;
QA bytes, bin indices, biome codes and stored LAI codes are naturals/integers.
Band structure (which named bands an image has) is modelled as a `List String`,
with `ee.Image.select` failing (`none`) when a requested band is absent.
-/

namespace LAI

/-! ## Band-structure model (Reflectance Normalizer, lines 102-119) -/

/-- The canonical band list: the `to` list of `renameLandsat` (line 117). -/
def canonical7 : List String := ["blue", "green", "red", "nir", "swir1", "swir2", "pixel_qa"]

/-- Source band names selected for Landsat 8/9 (line 115). -/
def renameFrom_L89 : List String :=
  ["SR_B2", "SR_B3", "SR_B4", "SR_B5", "SR_B6", "SR_B7", "QA_PIXEL"]

/-- Source band names selected for Landsat 4/5/7 (line 116). -/
def renameFrom_L457 : List String :=
  ["SR_B1", "SR_B2", "SR_B3", "SR_B4", "SR_B5", "SR_B7", "QA_PIXEL"]

/-- Band list of a Landsat 8/9 C02 L2 scene as served by Earth Engine. -/
def bandsOfL8Scene : List String :=
  ["SR_B1", "SR_B2", "SR_B3", "SR_B4", "SR_B5", "SR_B6", "SR_B7", "QA_PIXEL"]

/-- Band list of a Landsat 4/5/7 C02 L2 scene as served by Earth Engine. -/
def bandsOfL457Scene : List String :=
  ["SR_B1", "SR_B2", "SR_B3", "SR_B4", "SR_B5", "SR_B7", "QA_PIXEL"]

/-- Model of `ee.Image.select(from, to)` at the band-structure level: errors
(`none`) when a requested source band is missing, otherwise the output image
has exactly the `to` band names. -/
def eeSelect (bands fr tgt : List String) : Option (List String) :=
  if fr.all (fun b => bands.contains b) then some tgt else none

/-- Character 8 of the spacecraft id, i.e. `ee.String(id).slice(8,9)`
(lines 112 and 258); `none` when the id is shorter than 9 characters. -/
def spacecraftDigit (id : String) : Option Char := id.data.get? 8

/-- Model of `ee.Number.parse` applied to the one-character slice: a digit
character parses to its value, anything else is a server-side error. -/
def parseDigit (c : Char) : Option Nat :=
  if c.isDigit then some (c.toNat - 48) else none

/-- Band-structure semantics of `renameLandsat` (lines 110-119): parse the
spacecraft digit, pick the `from` list by `digit >= 8`, and select those bands
renamed to the canonical seven. -/
def renameLandsat_bands (id : String) (bands : List String) : Option (List String) :=
  match (spacecraftDigit id).bind parseDigit with
  | none => none
  | some n => eeSelect bands (if 8 ≤ n then renameFrom_L89 else renameFrom_L457) canonical7

/-- Band-structure semantics of `scaleLandsat` (lines 103-107): select
green/red/nir/swir1 (the arithmetic keeps band names), then add the
`pixel_qa` band back. -/
def scaleLandsat_bands (bands : List String) : Option (List String) :=
  match eeSelect bands ["green", "red", "nir", "swir1"] ["green", "red", "nir", "swir1"] with
  | none => none
  | some scaled =>
    match eeSelect bands ["pixel_qa"] ["pixel_qa"] with
    | none => none
    | some qab => some (scaled ++ qab)

/-- The Reflectance Normalizer at the band level: renaming followed by
rescaling, as composed in `processLandsat` (lines 67-68). -/
def reflectanceNormalizer_bands (id : String) (bands : List String) : Option (List String) :=
  (renameLandsat_bands id bands).bind scaleLandsat_bands

/-- Per-band value rescaling of `scaleLandsat` (line 105):
`v * 0.0000275 + (-0.2)` divided by `0.0001`. -/
def scaleSR (dn : ℚ) : ℚ := (dn * (275 / 10000000) + (-2 / 10)) / (1 / 10000)

/-- The sensor-group dictionary of `getLAIImage` (line 259):
`{'5':'LT05','7':'LE07','8':'LC08','9':'LC08'}`; `ee.Dictionary.get` on a
missing key is a server-side error (`none`). -/
def sensorDict (c : Char) : Option String :=
  if c = '5' then some "LT05"
  else if c = '7' then some "LE07"
  else if c = '8' then some "LC08"
  else if c = '9' then some "LC08"
  else none

/-- Sensor-group resolution step of `getLAIImage` (lines 258-259). -/
def getLAIImage_sensor (id : String) : Option String :=
  (spacecraftDigit id).bind sensorDict

/-! ## Solar geometry fallback (Feature Deriver, lines 72-93) -/

/-- Scene metadata: a finite association list of property names to numbers. -/
def EEProps : Type := List (String × ℚ)

/-- Model of `image.get(k)`: the first binding of `k`, if any. -/
def getProp (ps : EEProps) (k : String) : Option ℚ :=
  (List.find? (fun kv => kv.1 = k) ps).map (fun kv => kv.2)

/-- Model of `image.propertyNames().contains(k)`. -/
def propContains (ps : EEProps) (k : String) : Bool :=
  List.any ps (fun kv => kv.1 = k)

/-- Solar zenith resolution of `processLandsat` (lines 76-84):
`90 - SUN_ELEVATION` when present, else `SOLAR_ZENITH_ANGLE` when present,
else the constant 45. -/
def solarZenith (ps : EEProps) : Option ℚ :=
  if propContains ps "SUN_ELEVATION" then
    (getProp ps "SUN_ELEVATION").map (fun e => 90 - e)
  else if propContains ps "SOLAR_ZENITH_ANGLE" then
    getProp ps "SOLAR_ZENITH_ANGLE"
  else some 45

/-- Solar azimuth resolution of `processLandsat` (lines 85-93):
`SUN_AZIMUTH` when present, else `SOLAR_AZIMUTH_ANGLE` when present, else the
constant 180. -/
def solarAzimuth (ps : EEProps) : Option ℚ :=
  if propContains ps "SUN_AZIMUTH" then
    getProp ps "SUN_AZIMUTH"
  else if propContains ps "SOLAR_AZIMUTH_ANGLE" then
    getProp ps "SOLAR_AZIMUTH_ANGLE"
  else some 180

/-! ## QA Encoder (getLAIQA, lines 144-182) -/

/-- Per-pixel reflectance input to the QA encoder, on the scaled 0-10000
numeric range. -/
structure Refl where
  red : ℚ
  green : ℚ
  nir : ℚ
  swir1 : ℚ

/-- Range constants of `getLAIQA` (line 149). -/
def red_max : ℚ := 5100

/-- Range constant for green (line 149). -/
def green_max : ℚ := 5100

/-- Range constant for nir (line 149). -/
def nir_max : ℚ := 7100

/-- Range constant for swir1 (line 149). -/
def swir1_max : ℚ := 7100

/-- Valid-LAI upper bound (line 149). -/
def lai_max : ℚ := 8

/-- Bin discretization of `getLAIQA` (lines 156-159):
`band.divide(max).multiply(10).floor()`. -/
def binOf (v vmax : ℚ) : ℤ := Int.floor (v / vmax * 10)

/-- The `range_mask` of `getLAIQA` (lines 161-168): every reflectance input is
inside `[0, max)` for its band. -/
def rangeMask (p : Refl) : Bool :=
  decide (0 ≤ p.red) && decide (p.red < red_max)
    && decide (0 ≤ p.green) && decide (p.green < green_max)
    && decide (0 ≤ p.nir) && decide (p.nir < nir_max)
    && decide (0 ≤ p.swir1) && decide (p.swir1 < swir1_max)

/-- The convex-hull membership table: per sensor a 10x10x10x10 table of 0/1
values indexed by (red-bin, green-bin, nir-bin, swir1-bin); here abstracted as
a boolean function of the four bin indices (the table is an external frozen
asset, line 151). -/
def HullTable : Type := ℤ → ℤ → ℤ → ℤ → Bool

/-- The hull lookup of `getLAIQA` (lines 170-174): `arrayGet` of the reshaped
hull table at the discretized bins, with the image first masked (`none`) by
`range_mask`. -/
def hullLookup (hull : HullTable) (p : Refl) : Option Nat :=
  if rangeMask p then
    some (if hull (binOf p.red red_max) (binOf p.green green_max)
              (binOf p.nir nir_max) (binOf p.swir1 swir1_max) then 1 else 0)
  else none

/-- The `in_mask` of `getLAIQA` (lines 173-175): the hull lookup, `unmask(0)`
(out-of-range pixels become 0), then logical `not` (nonzero becomes 0, zero
becomes 1). -/
def in_mask (hull : HullTable) (p : Refl) : Nat :=
  if (hullLookup hull p).getD 0 = 0 then 1 else 0

/-- The `out_mask` of `getLAIQA` (line 177): `lai.gte(0).and(lai.lte(8)).not()`. -/
def out_mask (lai : ℚ) : Nat :=
  if 0 ≤ lai ∧ lai ≤ lai_max then 0 else 1

/-- The `biome_mask` of `getLAIQA` (line 178): `biome2.eq(0)`. -/
def biome_mask (biome : Nat) : Nat :=
  if biome = 0 then 1 else 0

/-- The packed QA byte of `getLAIQA` (line 180):
`in_mask | (out_mask << 1) | (biome_mask << 2)`. -/
def getLAIQA_pixel (hull : HullTable) (p : Refl) (lai : ℚ) (biome : Nat) : Nat :=
  (in_mask hull p ||| (out_mask lai <<< 1)) ||| (biome_mask biome <<< 2)

/-! ## Biome Classifier (getTrainImg, lines 211-213) -/

/-- NLCD land-cover codes of the remap table (line 211). -/
def nlcdFromList : List Nat :=
  [11, 12, 21, 22, 23, 24, 31, 41, 42, 43, 51, 52, 71, 72, 73, 74, 81, 82, 90, 95]

/-- Biome codes of the remap table (line 212). -/
def nlcdToList : List Nat :=
  [0, 0, 0, 0, 0, 0, 0, 1, 2, 3, 0, 4, 5, 0, 0, 0, 5, 6, 7, 8]

/-- Model of `remap(fromList, toList)` (line 213): the biome paired with the
first occurrence of the code in `fromList`; codes not in the table become
masked (`none`). -/
def remapBiome (code : Nat) : Option Nat :=
  (List.find? (fun ft => ft.1 = code) (nlcdFromList.zip nlcdToList)).map (fun ft => ft.2)

/-! ## Stratified Regressor (getLAIImage, lines 255-287) -/

/-- The internal sentinel written before any biome model runs (line 266). -/
def laiSentinel : ℚ := 9999

/-- The biome list iterated by `getLAIImage` (lines 263-264). -/
def biomesList (nonveg : Bool) : List Nat :=
  if nonveg then [0, 1, 2, 3, 4, 5, 6, 7, 8] else [1, 2, 3, 4, 5, 6, 7, 8]

/-- Per-pixel semantics of the `where` overlay loop (lines 266-273): start from
the sentinel and, for each biome `b` of the list, overwrite the accumulator
with the biome-`b` model output exactly where the pixel's biome equals `b`
(a masked biome band makes every test false).  `model b` is the output of the
frozen (sensor, biome-b) random-forest regressor at this pixel. -/
def laiFold (model : Nat → ℚ) (biome : Option Nat) (bs : List Nat) : ℚ :=
  bs.foldl (fun acc b => if biome = some b then model b else acc) laiSentinel

/-- Per-pixel LAI after the overlay loop and the sentinel masking of line 275:
`lai_img.updateMask(lai_img.neq(9999))`. -/
def laiScenePixel (model : Nat → ℚ) (biome : Option Nat) (nonveg : Bool) : Option ℚ :=
  if laiFold model biome (biomesList nonveg) = laiSentinel then none
  else some (laiFold model biome (biomesList nonveg))

/-- Stored LAI encoding of line 278:
`multiply(100).round().clamp(0,65535).uint16()`. -/
def encodeLAI (v : ℚ) : Nat :=
  (min (max (round (v * 100)) 0) 65535).toNat

/-- Modelled from the SPEC wording, for refinement comparison only (section
4.6 / C2): the stored value as `round(clamp(value,0,8) * 100)`. -/
def specStoredLAI (v : ℚ) : Nat :=
  (round (min (max v 0) 8 * 100)).toNat

/-- Joint per-pixel output of `getLAIImage` (lines 266-279): the stored LAI
code together with the QA byte; a pixel whose biome is masked or never matched
stays sentinel and is masked, and the QA band shares that mask (its
`out_mask`/`biome_mask` operands are masked there). -/
def perScenePixel (model : Nat → ℚ) (hull : HullTable) (p : Refl)
    (landcover : Nat) (nonveg : Bool) : Option (Nat × Nat) :=
  match remapBiome landcover with
  | none => none
  | some biome =>
    match laiScenePixel model (some biome) nonveg with
    | none => none
    | some lai => some (encodeLAI lai, getLAIQA_pixel hull p lai biome)

/-! ## Monthly Compositor (lines 311-359) -/

/-- The validity mask of `validMaskFromQA` (lines 311-315):
`(qa & 1 != 0).or(qa & 2 != 0).not()`. -/
def validMaskFromQA (qa : Nat) : Bool :=
  !(decide (qa &&& 1 ≠ 0) || decide (qa &&& 2 ≠ 0))

/-- Per-scene pixel as fed to the compositor stack (lines 323-328): the LAI
band masked by the validity mask derived from the QA band. -/
def scenePixelToComposite (px : Option (Nat × Nat)) : Option Nat :=
  match px with
  | none => none
  | some lq => if validMaskFromQA lq.2 then some lq.1 else none

/-- Earth Engine reduction of a stack at one pixel: reducers operate on the
unmasked inputs and the output is masked where there are no unmasked inputs.
`red` is the nonempty-case reducer (median or mean, line 336). -/
def reduceStack (red : List Nat → Nat) (xs : List (Option Nat)) : Option Nat :=
  if (xs.filterMap id).isEmpty then none else some (red (xs.filterMap id))

/-- The `count` reducer over a stack at one pixel (line 339): counts the
unmasked inputs, with masked output where there are none (Earth Engine
reducers yield masked output on an empty input set). -/
def countReduce (xs : List (Option Nat)) : Option Nat :=
  if (xs.filterMap id).isEmpty then none else some (xs.filterMap id).length

/-- Per-pixel semantics of `buildMonthlyLAI` (lines 323-339): mask each scene
by QA validity, substitute the fully-masked placeholder image when the scene
collection is empty (lines 330-334), then reduce to the composite value and
the observation count. -/
def buildMonthlyPixel (red : List Nat → Nat) (scenes : List (Option (Nat × Nat))) :
    Option Nat × Option Nat :=
  let stack := scenes.map scenePixelToComposite
  let safe := if scenes.isEmpty then [(none : Option Nat)] else stack
  (reduceStack red safe, countReduce safe)

end LAI

namespace LAI

/-! ## Helper lemmas -/

theorem in_mask_le_one (hull : HullTable) (p : Refl) : in_mask hull p ≤ 1 := by
  unfold in_mask
  split <;> simp

theorem out_mask_le_one (lai : ℚ) : out_mask lai ≤ 1 := by
  unfold out_mask
  split <;> simp

theorem biome_mask_le_one (b : Nat) : biome_mask b ≤ 1 := by
  unfold biome_mask
  split <;> simp

theorem pack_bits (a b c : Nat) (ha : a ≤ 1) (hb : b ≤ 1) (hc : c ≤ 1) :
    ((a ||| (b <<< 1)) ||| (c <<< 2)).testBit 0 = decide (a = 1)
      ∧ ((a ||| (b <<< 1)) ||| (c <<< 2)).testBit 1 = decide (b = 1)
      ∧ ((a ||| (b <<< 1)) ||| (c <<< 2)).testBit 2 = decide (c = 1) := by
  interval_cases a <;> interval_cases b <;> interval_cases c <;>
    exact ⟨by decide, by decide, by decide⟩

theorem validMask_testBit (q : Nat) :
    validMaskFromQA q = (!q.testBit 0 && !q.testBit 1) := by
  have h1 : q &&& 1 = (q.testBit 0).toNat * 1 := by
    simpa using Nat.and_two_pow q 0
  have h2 : q &&& 2 = (q.testBit 1).toNat * 2 := by
    simpa using Nat.and_two_pow q 1
  cases hb0 : q.testBit 0 <;> cases hb1 : q.testBit 1 <;>
    simp [validMaskFromQA, h1, h2, hb0, hb1]

theorem rangeMask_iff (p : Refl) :
    rangeMask p = true
      ↔ (0 ≤ p.red ∧ p.red < red_max ∧ 0 ≤ p.green ∧ p.green < green_max
          ∧ 0 ≤ p.nir ∧ p.nir < nir_max ∧ 0 ≤ p.swir1 ∧ p.swir1 < swir1_max) := by
  simp [rangeMask, and_assoc]

theorem in_mask_eq_one_iff (hull : HullTable) (p : Refl) :
    in_mask hull p = 1
      ↔ ¬ (rangeMask p = true
            ∧ hull (binOf p.red red_max) (binOf p.green green_max)
                (binOf p.nir nir_max) (binOf p.swir1 swir1_max) = true) := by
  unfold in_mask hullLookup
  by_cases hr : rangeMask p
  · by_cases hh : hull (binOf p.red red_max) (binOf p.green green_max)
        (binOf p.nir nir_max) (binOf p.swir1 swir1_max)
    · simp [hr, hh]
    · simp [hr, hh]
  · simp [hr]

theorem laiFold_not_mem (model : Nat → ℚ) (c : Nat) (bs : List Nat) (h : c ∉ bs) :
    laiFold model (some c) bs = laiSentinel := by
  unfold laiFold
  induction bs with
  | nil => rfl
  | cons b t ih =>
    rw [List.foldl_cons]
    rw [if_neg (by simp; exact fun hc => h (hc ▸ List.mem_cons_self b t))]
    exact ih (fun hc => h (List.mem_cons_of_mem b hc))

theorem foldl_overlay_acc (model : Nat → ℚ) (c : Nat) :
    ∀ (bs : List Nat) (acc : ℚ), c ∉ bs →
      bs.foldl (fun acc b => if (some c : Option Nat) = some b then model b else acc) acc
        = acc := by
  intro bs
  induction bs with
  | nil => intro acc _; rfl
  | cons b t ih =>
    intro acc h
    rw [List.foldl_cons]
    rw [if_neg (by simp; exact fun hc => h (hc ▸ List.mem_cons_self b t))]
    exact ih acc (fun hc => h (List.mem_cons_of_mem b hc))

theorem laiFold_mem (model : Nat → ℚ) (c : Nat) (bs : List Nat)
    (hnd : bs.Nodup) (h : c ∈ bs) :
    laiFold model (some c) bs = model c := by
  unfold laiFold
  induction bs with
  | nil => cases h
  | cons b t ih =>
    rw [List.foldl_cons]
    by_cases hc : c = b
    · subst hc
      rw [if_pos rfl]
      exact foldl_overlay_acc model c t (model c) ((List.nodup_cons.mp hnd).1)
    · rw [if_neg (by simp [hc])]
      exact ih (List.nodup_cons.mp hnd).2 ((List.mem_cons.mp h).resolve_left hc)

theorem laiFold_none (model : Nat → ℚ) (bs : List Nat) :
    laiFold model none bs = laiSentinel := by
  unfold laiFold
  induction bs with
  | nil => rfl
  | cons b t ih =>
    rw [List.foldl_cons, if_neg (by simp)]
    exact ih

theorem biomesList_nodup (nonveg : Bool) : (biomesList nonveg).Nodup := by
  cases nonveg <;> decide

theorem propContains_iff_getProp (ps : EEProps) (k : String) :
    propContains ps k = true ↔ (getProp ps k).isSome = true := by
  simp [propContains, getProp, List.any_eq_true, List.find?_isSome]

theorem sensor_dict_none_iff (c : Char) :
    sensorDict c = none ↔ c ∉ ['5', '7', '8', '9'] := by
  unfold sensorDict
  by_cases h5 : c = '5'
  · simp [h5]
  · by_cases h7 : c = '7'
    · simp [h7]
    · by_cases h8 : c = '8'
      · simp [h8]
      · by_cases h9 : c = '9'
        · simp [h9]
        · simp [h5, h7, h8, h9]

end LAI

namespace LAI

/-! ## Claim theorems -/

/-- C1: a pixel of a per-scene LAI image is retained in the composite stack
and adds one to the observation count exactly when neither QA bit 0 nor QA
bit 1 is set; the validity mask equals NOT(bit0 OR bit1) and setting QA bit 2
never changes the validity mask, so bit 2 alone never excludes a pixel. -/
theorem monthly_validity_iff (l q : Nat) (rest : List (Option Nat)) :
    (scenePixelToComposite (some (l, q)) = some l
        ↔ (q.testBit 0 = false ∧ q.testBit 1 = false))
      ∧ (scenePixelToComposite (some (l, q)) = none
        ↔ (q.testBit 0 = true ∨ q.testBit 1 = true))
      ∧ validMaskFromQA (q ||| 4) = validMaskFromQA q
      ∧ countReduce (scenePixelToComposite (some (l, q)) :: rest)
        = (if validMaskFromQA q then some ((rest.filterMap id).length + 1)
           else countReduce rest) := by
  have hv := validMask_testBit q
  have hv4 := validMask_testBit (q ||| 4)
  refine ⟨?_, ?_, ?_, ?_⟩
  · cases hb0 : q.testBit 0 <;> cases hb1 : q.testBit 1 <;>
      simp [scenePixelToComposite, hv, hb0, hb1]
  · cases hb0 : q.testBit 0 <;> cases hb1 : q.testBit 1 <;>
      simp [scenePixelToComposite, hv, hb0, hb1]
  · rw [hv, hv4, Nat.testBit_or, Nat.testBit_or]
    simp [show Nat.testBit 4 0 = false from by decide,
      show Nat.testBit 4 1 = false from by decide]
  · by_cases h : validMaskFromQA q
    · simp [scenePixelToComposite, h, countReduce, List.filterMap_cons]
    · simp [scenePixelToComposite, h, countReduce, List.filterMap_cons]

/-- C2, counterexample: the regressor output 9.1 is stored as code 910, while
the spec formula round(clamp(value,0,8)*100) gives 800; the code clamps the
scaled value to [0,65535], not the LAI to [0,8], so a stored code can exceed
800. -/
theorem stored_lai_can_exceed_800 :
    encodeLAI (91 / 10) = 910
      ∧ specStoredLAI (91 / 10) = 800
      ∧ encodeLAI (91 / 10) ≠ specStoredLAI (91 / 10)
      ∧ 800 < encodeLAI (91 / 10) := by
  have h1 : encodeLAI (91 / 10) = 910 := by
    norm_num [encodeLAI, round_eq]
    decide
  have h2 : specStoredLAI (91 / 10) = 800 := by
    norm_num [specStoredLAI, round_eq]
    decide
  exact ⟨h1, h2, by rw [h1, h2]; decide, by rw [h1]; decide⟩

/-- C2, amended: for regressor outputs already inside [0, 8] the stored code
equals round(value*100), never exceeds 800, and decoding with the 0.01 scale
factor recovers the value to within 0.005 LAI units; values outside [0, 8]
are stored as clamp(round(value*100), 0, 65535) instead of being clamped to
the LAI range. -/
theorem encodeLAI_spec (v : ℚ) (h0 : 0 ≤ v) (h8 : v ≤ 8) :
    encodeLAI v = (round (v * 100)).toNat
      ∧ encodeLAI v ≤ 800
      ∧ |(encodeLAI v : ℚ) * (1 / 100) - v| ≤ 1 / 200 := by
  have hr0 : 0 ≤ round (v * 100) := by
    rw [round_eq]
    rw [Int.le_floor]
    push_cast
    linarith
  have hr800 : round (v * 100) ≤ 800 := by
    rw [round_eq]
    have : (⌊v * 100 + 1 / 2⌋ : ℤ) < 801 := by
      rw [Int.floor_lt]
      push_cast
      linarith
    omega
  have henc : encodeLAI v = (round (v * 100)).toNat := by
    unfold encodeLAI
    rw [max_eq_left hr0, min_eq_left (by omega)]
  refine ⟨henc, ?_, ?_⟩
  · rw [henc]
    omega
  · rw [henc]
    have hcast : ((round (v * 100)).toNat : ℚ) = ((round (v * 100) : ℤ) : ℚ) := by
      exact_mod_cast congrArg (fun z : ℤ => (z : ℚ)) (Int.toNat_of_nonneg hr0)
    rw [hcast]
    have habs := abs_sub_round (v * 100)
    have hrw : ((round (v * 100) : ℤ) : ℚ) * (1 / 100) - v
        = -((v * 100 - (round (v * 100) : ℤ)) * (1 / 100)) := by ring
    rw [hrw, abs_neg, abs_mul]
    rw [show |(1 / 100 : ℚ)| = 1 / 100 by norm_num]
    nlinarith [abs_nonneg (v * 100 - ((round (v * 100) : ℤ) : ℚ))]

/-- C2, witness for the amended theorem at the concrete value 2.34. -/
theorem encodeLAI_spec_witness :
    encodeLAI (234 / 100) = (round ((234 / 100 : ℚ) * 100)).toNat
      ∧ encodeLAI (234 / 100) ≤ 800
      ∧ |(encodeLAI (234 / 100) : ℚ) * (1 / 100) - 234 / 100| ≤ 1 / 200 :=
  encodeLAI_spec (234 / 100) (by norm_num) (by norm_num)

/-- C3, counterexample: after renaming AND rescaling, the Reflectance
Normalizer output has exactly the five bands green, red, nir, swir1, pixel_qa
for both sensor generations; blue and swir2 belong to the canonical seven but
are dropped by the rescaling step, so the output is not the canonical set. -/
theorem normalizer_drops_blue_swir2 :
    reflectanceNormalizer_bands "LANDSAT_8" bandsOfL8Scene
        = some ["green", "red", "nir", "swir1", "pixel_qa"]
      ∧ reflectanceNormalizer_bands "LANDSAT_5" bandsOfL457Scene
        = some ["green", "red", "nir", "swir1", "pixel_qa"]
      ∧ canonical7.length = 7
      ∧ ("blue" ∈ canonical7 ∧ "blue" ∉ ["green", "red", "nir", "swir1", "pixel_qa"])
      ∧ ("swir2" ∈ canonical7 ∧ "swir2" ∉ ["green", "red", "nir", "swir1", "pixel_qa"]) := by
  refine ⟨rfl, rfl, rfl, ⟨?_, ?_⟩, ⟨?_, ?_⟩⟩ <;> decide

/-- C3, amended: whenever the Reflectance Normalizer succeeds, the
intermediate renaming output is exactly the canonical seven bands, and the
final output after rescaling is exactly green, red, nir, swir1, pixel_qa
(for every input sensor generation). -/
theorem normalizer_bands_spec (id : String) (bands out : List String)
    (h : reflectanceNormalizer_bands id bands = some out) :
    out = ["green", "red", "nir", "swir1", "pixel_qa"]
      ∧ renameLandsat_bands id bands = some canonical7 := by
  unfold reflectanceNormalizer_bands at h
  cases hr : renameLandsat_bands id bands with
  | none => rw [hr] at h; cases h
  | some mid =>
    rw [hr] at h
    have hmid : mid = canonical7 := by
      unfold renameLandsat_bands at hr
      cases hd : (spacecraftDigit id).bind parseDigit with
      | none => rw [hd] at hr; cases hr
      | some n =>
        rw [hd] at hr
        simp only [eeSelect] at hr
        split at hr
        · split at hr
          · exact (Option.some.inj hr).symm
          · cases hr
        · split at hr
          · exact (Option.some.inj hr).symm
          · cases hr
    subst hmid
    simp only [Option.some_bind] at h
    have : scaleLandsat_bands canonical7
        = some ["green", "red", "nir", "swir1", "pixel_qa"] := by
      rfl
    rw [this] at h
    exact ⟨(Option.some.inj h).symm, rfl⟩

/-- C3, witness for the amended theorem on a Landsat 8 scene. -/
theorem normalizer_bands_spec_witness :
    (["green", "red", "nir", "swir1", "pixel_qa"] : List String)
        = ["green", "red", "nir", "swir1", "pixel_qa"]
      ∧ renameLandsat_bands "LANDSAT_8" bandsOfL8Scene = some canonical7 :=
  normalizer_bands_spec "LANDSAT_8" bandsOfL8Scene
    ["green", "red", "nir", "swir1", "pixel_qa"] rfl

/-- C4: the QA byte equals bit0 OR (bit1 shifted left 1) OR (bit2 shifted
left 2); bit 2 is set exactly when the biome class is 0; and bit 2 is
unchanged under any change of the hull table, the reflectance inputs or the
predicted LAI, so it is never influenced by them. -/
theorem qa_encoder_pack_bit2 (hull : HullTable) (p : Refl) (lai : ℚ) (biome : Nat) :
    getLAIQA_pixel hull p lai biome
        = (in_mask hull p ||| (out_mask lai <<< 1)) ||| (biome_mask biome <<< 2)
      ∧ ((getLAIQA_pixel hull p lai biome).testBit 2 = true ↔ biome = 0)
      ∧ (∀ (hull2 : HullTable) (p2 : Refl) (lai2 : ℚ),
          (getLAIQA_pixel hull2 p2 lai2 biome).testBit 2
            = (getLAIQA_pixel hull p lai biome).testBit 2) := by
  have hp := pack_bits (in_mask hull p) (out_mask lai) (biome_mask biome)
    (in_mask_le_one hull p) (out_mask_le_one lai) (biome_mask_le_one biome)
  refine ⟨rfl, ?_, ?_⟩
  · rw [show getLAIQA_pixel hull p lai biome
        = (in_mask hull p ||| (out_mask lai <<< 1)) ||| (biome_mask biome <<< 2) from rfl]
    rw [hp.2.2]
    unfold biome_mask
    by_cases hb : biome = 0 <;> simp [hb]
  · intro hull2 p2 lai2
    have hp2 := pack_bits (in_mask hull2 p2) (out_mask lai2) (biome_mask biome)
      (in_mask_le_one hull2 p2) (out_mask_le_one lai2) (biome_mask_le_one biome)
    rw [show getLAIQA_pixel hull p lai biome
        = (in_mask hull p ||| (out_mask lai <<< 1)) ||| (biome_mask biome <<< 2) from rfl]
    rw [show getLAIQA_pixel hull2 p2 lai2 biome
        = (in_mask hull2 p2 ||| (out_mask lai2 <<< 1)) ||| (biome_mask biome <<< 2) from rfl]
    rw [hp.2.2, hp2.2.2]

/-- C5: with zero qualifying scenes the composite LAI pixel is no-data and is
never the value zero, as the claim states; but the observation-count pixel is
also no-data rather than zero, because the count reducer runs over the
fully-masked placeholder image and Earth Engine reducers yield masked output
where there are no unmasked inputs; the source never unmasks the count to 0. -/
theorem buildMonthly_zero_scenes (red : List Nat → Nat) :
    buildMonthlyPixel red [] = (none, none)
      ∧ (buildMonthlyPixel red []).1 ≠ some 0
      ∧ (buildMonthlyPixel red []).2 ≠ some 0 := by
  refine ⟨rfl, ?_, ?_⟩ <;> intro h <;> cases h

/-- C6, counterexample: for the unrecognized sensor id LANDSAT_4 the
Reflectance Normalizer succeeds, silently using the older band mapping, while
the sensor-group dictionary lookup of getLAIImage is what errors. -/
theorem normalizer_silent_default_L4 :
    getLAIImage_sensor "LANDSAT_4" = none
      ∧ spacecraftDigit "LANDSAT_4" = some '4'
      ∧ renameLandsat_bands "LANDSAT_4" bandsOfL457Scene = some canonical7 := by
  exact ⟨rfl, rfl, rfl⟩

/-- C6, amended: the Reflectance Normalizer itself never validates the
sensor: any spacecraft digit below 8 silently selects the older band mapping
and any digit 8 or above the newer one; the loud failure for sensors outside
the four recognized generations happens in the sensor-group dictionary lookup
of the LAI retrieval, which errors for every digit other than 5, 7, 8, 9. -/
theorem sensor_failure_location (id : String) (c : Char) (bands : List String) :
    (spacecraftDigit id = some c → c ∉ ['5', '7', '8', '9'] → getLAIImage_sensor id = none)
      ∧ (∀ n : Nat, spacecraftDigit id = some c → parseDigit c = some n → n < 8 →
          renameLandsat_bands id bands = eeSelect bands renameFrom_L457 canonical7)
      ∧ (∀ n : Nat, spacecraftDigit id = some c → parseDigit c = some n → 8 ≤ n →
          renameLandsat_bands id bands = eeSelect bands renameFrom_L89 canonical7) := by
  refine ⟨?_, ?_, ?_⟩
  · intro hc hmem
    unfold getLAIImage_sensor
    rw [hc, Option.some_bind]
    exact (sensor_dict_none_iff c).mpr hmem
  · intro n hc hp hlt
    unfold renameLandsat_bands
    rw [hc, Option.some_bind, hp]
    show eeSelect bands (if 8 ≤ n then renameFrom_L89 else renameFrom_L457) canonical7
      = eeSelect bands renameFrom_L457 canonical7
    rw [if_neg (by omega)]
  · intro n hc hp hge
    unfold renameLandsat_bands
    rw [hc, Option.some_bind, hp]
    show eeSelect bands (if 8 ≤ n then renameFrom_L89 else renameFrom_L457) canonical7
      = eeSelect bands renameFrom_L89 canonical7
    rw [if_pos hge]

/-- C6, witness for the amended theorem at LANDSAT_4 and LANDSAT_8. -/
theorem sensor_failure_location_witness :
    getLAIImage_sensor "LANDSAT_4" = none
      ∧ renameLandsat_bands "LANDSAT_4" bandsOfL457Scene
        = eeSelect bandsOfL457Scene renameFrom_L457 canonical7
      ∧ renameLandsat_bands "LANDSAT_8" bandsOfL8Scene
        = eeSelect bandsOfL8Scene renameFrom_L89 canonical7 :=
  ⟨(sensor_failure_location "LANDSAT_4" '4' bandsOfL457Scene).1 rfl (by decide),
   (sensor_failure_location "LANDSAT_4" '4' bandsOfL457Scene).2.1 4 rfl rfl (by decide),
   (sensor_failure_location "LANDSAT_8" '8' bandsOfL8Scene).2.2 8 rfl rfl (by decide)⟩

/-- C7: QA bit 0 is set exactly when some reflectance input lies outside its
valid numeric range or the hull table is false at the 4-D bin index obtained
by dividing each band's range into 10 equal-width bins; in particular every
out-of-range pixel has bit 0 set regardless of the hull table. -/
theorem qa_bit0_iff (hull : HullTable) (p : Refl) (lai : ℚ) (biome : Nat) :
    (getLAIQA_pixel hull p lai biome).testBit 0 = true
      ↔ (¬ (0 ≤ p.red ∧ p.red < red_max ∧ 0 ≤ p.green ∧ p.green < green_max
            ∧ 0 ≤ p.nir ∧ p.nir < nir_max ∧ 0 ≤ p.swir1 ∧ p.swir1 < swir1_max)
          ∨ hull (binOf p.red red_max) (binOf p.green green_max)
              (binOf p.nir nir_max) (binOf p.swir1 swir1_max) = false) := by
  have hp := pack_bits (in_mask hull p) (out_mask lai) (biome_mask biome)
    (in_mask_le_one hull p) (out_mask_le_one lai) (biome_mask_le_one biome)
  rw [show getLAIQA_pixel hull p lai biome
      = (in_mask hull p ||| (out_mask lai <<< 1)) ||| (biome_mask biome <<< 2) from rfl]
  rw [hp.1]
  rw [decide_eq_true_iff]
  rw [in_mask_eq_one_iff, ← rangeMask_iff]
  constructor
  · intro h
    by_cases hr : rangeMask p = true
    · right
      by_cases hh : hull (binOf p.red red_max) (binOf p.green green_max)
          (binOf p.nir nir_max) (binOf p.swir1 swir1_max) = true
      · exact absurd ⟨hr, hh⟩ h
      · simpa using hh
    · exact Or.inl hr
  · intro h hc
    rcases h with h | h
    · exact h hc.1
    · rw [hc.2] at h
      simp at h

/-- C8: a pixel whose biome is 0 with non-vegetated retrieval disabled, whose
biome band is masked, or whose biome is outside the processed list keeps the
sentinel and is masked out of the per-scene LAI output, for every model (so
independently of reflectance validity); and a pixel whose biome is in the
list is written exactly once, receiving its own biome's model output. -/
theorem stratified_overlay_spec (model : Nat → ℚ) (nonveg : Bool) :
    laiScenePixel model (some 0) false = none
      ∧ laiScenePixel model none nonveg = none
      ∧ (∀ b : Nat, b ∉ biomesList nonveg → laiScenePixel model (some b) nonveg = none)
      ∧ (∀ b : Nat, b ∈ biomesList nonveg →
          laiFold model (some b) (biomesList nonveg) = model b) := by
  refine ⟨?_, ?_, ?_, ?_⟩
  · unfold laiScenePixel
    rw [laiFold_not_mem model 0 (biomesList false) (by decide)]
    simp
  · unfold laiScenePixel
    rw [laiFold_none]
    simp
  · intro b hb
    unfold laiScenePixel
    rw [laiFold_not_mem model b (biomesList nonveg) hb]
    simp
  · intro b hb
    exact laiFold_mem model b (biomesList nonveg) (biomesList_nodup nonveg) hb

/-- C8, witness for the overlay theorem at a constant model. -/
theorem stratified_overlay_spec_witness :
    laiScenePixel (fun _ => (2 : ℚ)) (some 0) false = none
      ∧ laiScenePixel (fun _ => (2 : ℚ)) none false = none
      ∧ laiScenePixel (fun _ => (2 : ℚ)) (some 42) false = none
      ∧ laiFold (fun _ => (2 : ℚ)) (some 3) (biomesList false) = 2 :=
  ⟨(stratified_overlay_spec (fun _ => 2) false).1,
   (stratified_overlay_spec (fun _ => 2) false).2.1,
   (stratified_overlay_spec (fun _ => 2) false).2.2.1 42 (by decide),
   (stratified_overlay_spec (fun _ => 2) false).2.2.2 3 (by decide)⟩

/-- C9: the resolved solar zenith is 90 minus the sun-elevation field when
present, else the alternate zenith-angle field when present, else exactly 45;
the solar azimuth is the sun-azimuth field when present, else the alternate
azimuth-angle field when present, else exactly 180, in that priority order. -/
theorem solar_geometry_fallback (ps : EEProps) :
    (∀ e : ℚ, getProp ps "SUN_ELEVATION" = some e → solarZenith ps = some (90 - e))
      ∧ (getProp ps "SUN_ELEVATION" = none →
          ∀ z : ℚ, getProp ps "SOLAR_ZENITH_ANGLE" = some z → solarZenith ps = some z)
      ∧ (getProp ps "SUN_ELEVATION" = none → getProp ps "SOLAR_ZENITH_ANGLE" = none →
          solarZenith ps = some 45)
      ∧ (∀ a : ℚ, getProp ps "SUN_AZIMUTH" = some a → solarAzimuth ps = some a)
      ∧ (getProp ps "SUN_AZIMUTH" = none →
          ∀ a : ℚ, getProp ps "SOLAR_AZIMUTH_ANGLE" = some a → solarAzimuth ps = some a)
      ∧ (getProp ps "SUN_AZIMUTH" = none → getProp ps "SOLAR_AZIMUTH_ANGLE" = none →
          solarAzimuth ps = some 180) := by
  refine ⟨?_, ?_, ?_, ?_, ?_, ?_⟩
  · intro e he
    unfold solarZenith
    rw [if_pos ((propContains_iff_getProp ps "SUN_ELEVATION").mpr (by rw [he]; rfl))]
    rw [he]
    rfl
  · intro hn z hz
    unfold solarZenith
    rw [if_neg (by
      rw [propContains_iff_getProp, hn]
      simp)]
    rw [if_pos ((propContains_iff_getProp ps "SOLAR_ZENITH_ANGLE").mpr (by rw [hz]; rfl))]
    exact hz
  · intro hn hz
    unfold solarZenith
    rw [if_neg (by rw [propContains_iff_getProp, hn]; simp)]
    rw [if_neg (by rw [propContains_iff_getProp, hz]; simp)]
  · intro a ha
    unfold solarAzimuth
    rw [if_pos ((propContains_iff_getProp ps "SUN_AZIMUTH").mpr (by rw [ha]; rfl))]
    exact ha
  · intro hn a ha
    unfold solarAzimuth
    rw [if_neg (by rw [propContains_iff_getProp, hn]; simp)]
    rw [if_pos ((propContains_iff_getProp ps "SOLAR_AZIMUTH_ANGLE").mpr (by rw [ha]; rfl))]
    exact ha
  · intro hn ha
    unfold solarAzimuth
    rw [if_neg (by rw [propContains_iff_getProp, hn]; simp)]
    rw [if_neg (by rw [propContains_iff_getProp, ha]; simp)]

/-- C9, witness exercising each branch of the fallback chain. -/
theorem solar_geometry_fallback_witness :
    solarZenith [("SUN_ELEVATION", (30 : ℚ))] = some 60
      ∧ solarZenith [("SOLAR_ZENITH_ANGLE", (50 : ℚ))] = some 50
      ∧ solarZenith [] = some 45
      ∧ solarAzimuth [("SUN_AZIMUTH", (100 : ℚ))] = some 100
      ∧ solarAzimuth [("SOLAR_AZIMUTH_ANGLE", (120 : ℚ))] = some 120
      ∧ solarAzimuth [] = some 180 := by
  refine ⟨?_, ?_, ?_, ?_, ?_, ?_⟩
  · have h := (solar_geometry_fallback [("SUN_ELEVATION", (30 : ℚ))]).1 30 rfl
    rw [h]
    norm_num
  · exact (solar_geometry_fallback [("SOLAR_ZENITH_ANGLE", (50 : ℚ))]).2.1 rfl 50 rfl
  · exact (solar_geometry_fallback []).2.2.1 rfl rfl
  · exact (solar_geometry_fallback [("SUN_AZIMUTH", (100 : ℚ))]).2.2.2.1 100 rfl
  · exact (solar_geometry_fallback [("SOLAR_AZIMUTH_ANGLE", (120 : ℚ))]).2.2.2.2.1 rfl 120 rfl
  · exact (solar_geometry_fallback []).2.2.2.2.2 rfl rfl

/-- C10: a land-cover code outside the 20-entry remap table yields a masked
biome band, the pixel then keeps the sentinel and is masked out of the
per-scene LAI output (for every model, hull table and reflectance), is masked
in the composite stack, and adds nothing to the monthly observation count. -/
theorem unmapped_landcover_fails_closed (code : Nat) (model : Nat → ℚ) (hull : HullTable)
    (p : Refl) (nonveg : Bool) (rest : List (Option Nat)) (h : code ∉ nlcdFromList) :
    remapBiome code = none
      ∧ perScenePixel model hull p code nonveg = none
      ∧ scenePixelToComposite (perScenePixel model hull p code nonveg) = none
      ∧ countReduce (scenePixelToComposite (perScenePixel model hull p code nonveg) :: rest)
        = countReduce rest := by
  have hrm : remapBiome code = none := by
    unfold remapBiome
    rw [List.find?_eq_none.mpr]
    · rfl
    · intro ft hft
      have hmem := (List.of_mem_zip hft).1
      simp only [decide_eq_true_eq]
      exact fun hf => h (hf ▸ hmem)
  have hps : perScenePixel model hull p code nonveg = none := by
    unfold perScenePixel
    rw [hrm]
  refine ⟨hrm, hps, ?_, ?_⟩
  · rw [hps]
    rfl
  · rw [hps]
    simp [scenePixelToComposite, countReduce, List.filterMap_cons]

/-- C10, witness at the unmapped land-cover code 13. -/
theorem unmapped_landcover_fails_closed_witness :
    remapBiome 13 = none
      ∧ perScenePixel (fun _ => (2 : ℚ)) (fun _ _ _ _ => true) ⟨0, 0, 0, 0⟩ 13 false = none
      ∧ scenePixelToComposite
          (perScenePixel (fun _ => (2 : ℚ)) (fun _ _ _ _ => true) ⟨0, 0, 0, 0⟩ 13 false) = none
      ∧ countReduce
          (scenePixelToComposite
              (perScenePixel (fun _ => (2 : ℚ)) (fun _ _ _ _ => true) ⟨0, 0, 0, 0⟩ 13 false)
            :: [some 5])
        = countReduce [some 5] :=
  unmapped_landcover_fails_closed 13 (fun _ => 2) (fun _ _ _ _ => true) ⟨0, 0, 0, 0⟩ false
    [some 5] (by decide)

end LAI
